import Mathlib

/-!
Verification of the demand-lifecycle core of the `demandas` repository
(`src/sistema_demandas/data_access.py`, schema from
`src/sistema_demandas/migrations.py`, notification from
`src/sistema_demandas/email_service.py`).

The Python functions are shallowly embedded as pure Lean functions.  The
PostgreSQL table state is an explicit record of rows; timestamps are
naturals; the America/Fortaleza clock enters as explicit parameters
(`prefixo` for the date prefix DDMMYY, `now` for CURRENT_TIMESTAMP).
Environment-driven e-mail configuration and network outcomes enter as an
explicit `EmailEnv` parameter.  Commits and rollbacks are modelled by
returning either the mutated state (commit) or the unchanged input state
(rollback / error): every operation returns the post-transaction state.
-/

namespace SistemaDemandas

/-- Decimal digits of a natural number, most significant first, with
explicit fuel (always called with fuel above the argument). -/
def natDecimalCore : Nat → Nat → List Char
  | 0, _ => []
  | fuel + 1, n =>
    if n < 10 then [Nat.digitChar n]
    else natDecimalCore fuel (n / 10) ++ [Nat.digitChar (n % 10)]

/-- Decimal digits of a natural number, most significant first. -/
def natDecimal (n : Nat) : List Char :=
  natDecimalCore (n + 1) n

/-- Python `f"{n:02d}"` for the natural numbers used by the code
generator: zero-pad to width two (numbers of three or more digits are
printed in full). -/
def pad2 (n : Nat) : String :=
  if n < 10 then String.mk ('0' :: natDecimal n) else String.mk (natDecimal n)

/-- The whitespace class of CPython's `str.isspace`, which is what
`str.strip()` removes: ASCII 0x09-0x0D, the separators 0x1C-0x1F, the
space, NEL 0x85, NBSP 0xA0, Ogham space 0x1680, the Unicode space
characters 0x2000-0x200A, the line and paragraph separators 0x2028 and
0x2029, and the spaces 0x202F, 0x205F and 0x3000. -/
def pyIsSpace (c : Char) : Bool :=
  decide ((9 ≤ c.toNat ∧ c.toNat ≤ 13) ∨ (28 ≤ c.toNat ∧ c.toNat ≤ 31) ∨ c.toNat = 32 ∨
    c.toNat = 133 ∨ c.toNat = 160 ∨ c.toNat = 5760 ∨
    (8192 ≤ c.toNat ∧ c.toNat ≤ 8202) ∨ c.toNat = 8232 ∨ c.toNat = 8233 ∨
    c.toNat = 8239 ∨ c.toNat = 8287 ∨ c.toNat = 12288)

/-- Python `str.strip()` on a character list: drop `str.isspace`
characters from both ends. -/
def pyStripChars (l : List Char) : List Char :=
  ((l.dropWhile pyIsSpace).reverse.dropWhile pyIsSpace).reverse

/-- The blank trimming the SQL integer cast applies around a numeric
literal. -/
def pgTrimChars (l : List Char) : List Char :=
  ((l.dropWhile Char.isWhitespace).reverse.dropWhile Char.isWhitespace).reverse

/-- Split a character list on a separator character (the semantics of
SQL `SPLIT_PART`'s field decomposition, for the one-character separator
the source uses). -/
def splitOnSep (sep : Char) : List Char → List (List Char)
  | [] => [[]]
  | c :: rest =>
    let r := splitOnSep sep rest
    if c == sep then [] :: r
    else
      match r with
      | [] => [[c]]
      | h :: t => (c :: h) :: t

/-- SQL `SPLIT_PART(s, sep, i)` (1-indexed; empty string when the index
is out of range). -/
def split_part (s : String) (sep : Char) (i : Nat) : String :=
  String.mk ((splitOnSep sep s.data).getD (i - 1) [])

/-- Numeric value of a decimal digit list. -/
def decDigitsVal (l : List Char) : Nat :=
  l.foldl (fun a c => a * 10 + (c.toNat - 48)) 0

/-- Drop one optional leading plus sign. -/
def dropPlus (t : List Char) : List Char :=
  match t with
  | '+' :: rest => rest
  | other => other

/-- SQL `text::int` cast, as applied to the hyphen-free suffixes produced
by `SPLIT_PART(codigo, '-', 2)`: surrounding blanks and an optional plus
sign are accepted, anything else that is not a digit string makes the
cast raise, aborting the statement — modelled as `none`. -/
def pg_cast_nat (s : String) : Option Nat :=
  let t := dropPlus (pgTrimChars s.data)
  if t.isEmpty then none
  else if t.all (fun c => c.isDigit) then some (decDigitsVal t) else none

/-- `gerar_codigo_demanda` (`data_access.py` lines 160-169).  `prefixo`
is `agora_fortaleza().strftime("%d%m%y")`, a six-digit date string, and
`codigos` the `codigo` column of the `demandas` table.  The SQL takes
`MAX(NULLIF(SPLIT_PART(codigo, '-', 2), '')::int)` over rows with
`codigo LIKE '<prefixo>-%'` (the date prefixes contain no `LIKE`
metacharacters, so the pattern is a plain prefix match), coalesced to 0,
and the function returns `f"{prefixo}-{(max_seq + 1):02d}"`.  A matching
row whose non-empty suffix fails the integer cast aborts the query
(`none`). -/
def gerar_codigo_demanda (prefixo : String) (codigos : List String) : Option String :=
  let matching := codigos.filter (fun c => List.isPrefixOf (prefixo ++ "-").data c.data)
  let sufixos := (matching.map (fun c => split_part c '-' 2)).filter (fun s => s ≠ "")
  if sufixos.all (fun s => (pg_cast_nat s).isSome) then
    let max_seq := (sufixos.filterMap pg_cast_nat).foldl max 0
    some (prefixo ++ "-" ++ pad2 (max_seq + 1))
  else
    none

/-- The separator characters removed by `normalizar_busca_codigo`
(`data_access.py` line 177: `replace` of `/`, space, `.`, `_` by the
empty string). -/
def pySeps : List Char := ['/', ' ', '.', '_']

/-- The four `replace(sep, "")` calls of `normalizar_busca_codigo`. -/
def removeSepsChars (l : List Char) : List Char :=
  l.filter (fun c => !(pySeps.contains c))

/-- `normalizar_busca_codigo` (`data_access.py` lines 172-180) on the
character list of the input.  `str.isdigit` is modelled by the ASCII
decimal-digit classifier, which agrees with CPython on the code
strings this helper is applied to. -/
def normalizarChars (l : List Char) : List Char :=
  if l = [] then []
  else
    let s := removeSepsChars (pyStripChars l)
    if s.length == 8 && s.all (fun c => c.isDigit) then
      s.take 6 ++ '-' :: s.drop 6
    else
      s

/-- `normalizar_busca_codigo` as a function on strings. -/
def normalizar_busca_codigo (texto : String) : String :=
  String.mk (normalizarChars texto.data)

/-- A row of the `demandas` table (`migrations.py` lines 144-165).
Timestamps are naturals, `DECIMAL` money/hour columns are integers (the
claims under study never divide them), nullable columns are `Option`. -/
structure Demanda where
  id : Nat
  codigo : String
  item : String
  quantidade : Int
  solicitante : String
  departamento : String
  local_ : Option String
  prioridade : String
  observacoes : String
  status : String
  data_criacao : Nat
  data_atualizacao : Nat
  categoria : String
  unidade : String
  urgencia : Bool
  estimativa_horas : Option Int
  almoxarifado : Bool
  valor : Option Int
deriving DecidableEq, Repr

/-- The columns an update payload may address (the keys of the
`dados_atualizados` dict iterated by `atualizar_demanda`; `id`,
`data_criacao` and `data_atualizacao` are never part of a payload —
the latter is bumped by the function itself). -/
inductive Campo where
  | codigo | item | quantidade | solicitante | departamento | local_
  | prioridade | observacoes | status | categoria | unidade | urgencia
  | estimativa_horas | almoxarifado | valor
deriving DecidableEq, Repr

/-- A Python value as it appears in a row dict / an audit payload. -/
inductive FieldVal where
  | str (s : String)
  | int (n : Int)
  | bool (b : Bool)
  | null
deriving DecidableEq, Repr

/-- Reading a column of a row dict (`demanda_antiga[campo]`). -/
def Demanda.fieldVal (d : Demanda) : Campo → FieldVal
  | .codigo => .str d.codigo
  | .item => .str d.item
  | .quantidade => .int d.quantidade
  | .solicitante => .str d.solicitante
  | .departamento => .str d.departamento
  | .local_ => match d.local_ with | some s => .str s | none => .null
  | .prioridade => .str d.prioridade
  | .observacoes => .str d.observacoes
  | .status => .str d.status
  | .categoria => .str d.categoria
  | .unidade => .str d.unidade
  | .urgencia => .bool d.urgencia
  | .estimativa_horas => match d.estimativa_horas with | some n => .int n | none => .null
  | .almoxarifado => .bool d.almoxarifado
  | .valor => match d.valor with | some n => .int n | none => .null

/-- One `campo, valor` entry of the `dados_atualizados` dict, with the
value typed as the column it addresses (the shape every caller in the
repository produces). -/
inductive Atualiza where
  | codigo (v : String)
  | item (v : String)
  | quantidade (v : Int)
  | solicitante (v : String)
  | departamento (v : String)
  | local_ (v : Option String)
  | prioridade (v : String)
  | observacoes (v : String)
  | status (v : String)
  | categoria (v : String)
  | unidade (v : String)
  | urgencia (v : Bool)
  | estimativa_horas (v : Option Int)
  | almoxarifado (v : Bool)
  | valor (v : Option Int)
deriving DecidableEq, Repr

/-- The column an update entry addresses. -/
def Atualiza.campo : Atualiza → Campo
  | .codigo _ => .codigo
  | .item _ => .item
  | .quantidade _ => .quantidade
  | .solicitante _ => .solicitante
  | .departamento _ => .departamento
  | .local_ _ => .local_
  | .prioridade _ => .prioridade
  | .observacoes _ => .observacoes
  | .status _ => .status
  | .categoria _ => .categoria
  | .unidade _ => .unidade
  | .urgencia _ => .urgencia
  | .estimativa_horas _ => .estimativa_horas
  | .almoxarifado _ => .almoxarifado
  | .valor _ => .valor

/-- The supplied value of an update entry, as recorded in the audit
payload (`detalhes_historico["novo"][campo] = valor`). -/
def Atualiza.novoVal : Atualiza → FieldVal
  | .codigo v => .str v
  | .item v => .str v
  | .quantidade v => .int v
  | .solicitante v => .str v
  | .departamento v => .str v
  | .local_ v => match v with | some s => .str s | none => .null
  | .prioridade v => .str v
  | .observacoes v => .str v
  | .status v => .str v
  | .categoria v => .str v
  | .unidade v => .str v
  | .urgencia v => .bool v
  | .estimativa_horas v => match v with | some n => .int n | none => .null
  | .almoxarifado v => .bool v
  | .valor v => match v with | some n => .int n | none => .null

/-- The `demanda_antiga[campo] == valor` test of the diff loop
(`data_access.py` line 352): the entry is skipped when the supplied value
equals the stored one. -/
def Atualiza.unchanged (d : Demanda) (a : Atualiza) : Bool :=
  d.fieldVal a.campo == a.novoVal

/-- `UPDATE demandas SET campo = valor` for a single entry, applied to a
single row. -/
def Atualiza.apply (d : Demanda) : Atualiza → Demanda
  | .codigo v => { d with codigo := v }
  | .item v => { d with item := v }
  | .quantidade v => { d with quantidade := v }
  | .solicitante v => { d with solicitante := v }
  | .departamento v => { d with departamento := v }
  | .local_ v => { d with local_ := v }
  | .prioridade v => { d with prioridade := v }
  | .observacoes v => { d with observacoes := v }
  | .status v => { d with status := v }
  | .categoria v => { d with categoria := v }
  | .unidade v => { d with unidade := v }
  | .urgencia v => { d with urgencia := v }
  | .estimativa_horas v => { d with estimativa_horas := v }
  | .almoxarifado v => { d with almoxarifado := v }
  | .valor v => { d with valor := v }

/-- The `dados` dict accepted by `adicionar_demanda`: required keys as
plain fields, keys read through `dados.get(...)` with a default as
`Option` (`none` = key absent). -/
structure DadosDemanda where
  item : String
  quantidade : Int
  solicitante : String
  departamento : String
  local_ : Option String
  prioridade : String
  observacoes : Option String
  categoria : Option String
  unidade : Option String
  urgencia : Option Bool
  almoxarifado : Option Bool
  valor : Option Int
deriving DecidableEq, Repr

/-- The structured audit payload handed to `dumps_safe` (the JSON
serialisation itself is outside the model): the full input dict on
creation, the `{"antigo": ..., "novo": ...}` diff on update. -/
inductive Detalhes where
  | criacao (dados : DadosDemanda)
  | atualizacao (antigo : List (Campo × FieldVal)) (novo : List (Campo × FieldVal))
deriving DecidableEq, Repr

/-- A row of the `historico_demandas` table (`migrations.py` lines
168-177). -/
structure HistoricoRow where
  id : Nat
  demanda_id : Nat
  usuario : String
  acao : String
  detalhes : Detalhes
  data_acao : Nat
deriving DecidableEq, Repr

/-- The shared mutable database state: the two core tables plus the
`SERIAL` counters. -/
structure DB where
  demandas : List Demanda
  historico : List HistoricoRow
  nextDemandaId : Nat
  nextHistId : Nat
deriving DecidableEq, Repr

/-- `pat` occurs as a contiguous subsequence of the list. -/
def containsSeq (pat : List Char) : List Char → Bool
  | [] => pat.isEmpty
  | c :: rest => pat.isPrefixOf (c :: rest) || containsSeq pat rest

/-- SQL `column ILIKE '%term%'` for terms without `LIKE` metacharacters:
case-insensitive substring containment. -/
def ilike_contains (hay pat : String) : Bool :=
  containsSeq (pat.data.map Char.toLower) (hay.data.map Char.toLower)

/-- The `filtros` dict passed to `carregar_demandas` and
`obter_estatisticas`: `none` models an absent key.  The dict built by
the view layer may also carry `departamento` and `search` keys; the
functions in `data_access.py` never consult them, so they appear here as
fields the predicate below does not read. -/
structure Filtros where
  solicitante : Option String := none
  codigo : Option String := none
  status : Option (List String) := none
  prioridade : Option (List String) := none
  data_inicio : Option Nat := none
  data_fim : Option Nat := none
  departamento : Option (List String) := none
  search : Option String := none
deriving DecidableEq, Repr

/-- The `WHERE` clause built by `carregar_demandas` (`data_access.py`
lines 198-219), as a row predicate.  Each branch is guarded by Python
truthiness: an empty string or empty list is as good as an absent key. -/
def matchesFiltros (f : Filtros) (d : Demanda) : Bool :=
  (match f.solicitante with
   | some s => s == "" || ilike_contains d.solicitante s
   | none => true) &&
  (match f.codigo with
   | some c => c == "" || d.codigo == normalizar_busca_codigo c
   | none => true) &&
  (match f.status with
   | some l => l.isEmpty || l.contains d.status
   | none => true) &&
  (match f.prioridade with
   | some l => l.isEmpty || l.contains d.prioridade
   | none => true) &&
  (match f.data_inicio with
   | some t => decide (t ≤ d.data_criacao)
   | none => true) &&
  (match f.data_fim with
   | some t => decide (d.data_criacao < t)
   | none => true)

/-- `carregar_demandas` (`data_access.py` lines 185-233): the filtered
rows, `ORDER BY data_criacao DESC` (the display-string decoration of
each returned dict is presentation and not modelled). -/
def carregar_demandas (f : Filtros) (db : DB) : List Demanda :=
  (db.demandas.filter (matchesFiltros f)).insertionSort
    (fun a b => b.data_criacao ≤ a.data_criacao)

/-- The `WHERE` clause built by `obter_estatisticas` (`data_access.py`
lines 408-429); same guards as `matchesFiltros`, assembled in the order
of that function. -/
def matchesFiltrosEstat (f : Filtros) (d : Demanda) : Bool :=
  (match f.solicitante with
   | some s => s == "" || ilike_contains d.solicitante s
   | none => true) &&
  (match f.codigo with
   | some c => c == "" || d.codigo == normalizar_busca_codigo c
   | none => true) &&
  (match f.data_inicio with
   | some t => decide (t ≤ d.data_criacao)
   | none => true) &&
  (match f.data_fim with
   | some t => decide (d.data_criacao < t)
   | none => true) &&
  (match f.status with
   | some l => l.isEmpty || l.contains d.status
   | none => true) &&
  (match f.prioridade with
   | some l => l.isEmpty || l.contains d.prioridade
   | none => true)

/-- `GROUP BY key` with `COUNT(*)`, one pair per distinct key (SQL
leaves the group order unspecified; the sorts the source applies on top
are below). -/
def groupCount (key : Demanda → String) (rows : List Demanda) : List (String × Nat) :=
  ((rows.map key).dedup).map (fun k => (k, (rows.filter (fun d => key d == k)).length))

/-- The `CASE prioridade ... END` sort rank of the by-priority query. -/
def prioridadeRank (p : String) : Nat :=
  if p == "Urgente" then 1 else if p == "Alta" then 2 else if p == "Média" then 3 else 4

/-- The aggregate result of `obter_estatisticas`. -/
structure Estatisticas where
  total : Nat
  pendentes : Nat
  em_andamento : Nat
  concluidas : Nat
  canceladas : Nat
  urgentes : Nat
  total_itens : Int
  total_valor : Int
  por_departamento : List (String × Nat)
  por_prioridade : List (String × Nat)
  por_status : List (String × Nat)
deriving DecidableEq, Repr

/-- `obter_estatisticas` (`data_access.py` lines 401-487): the four
aggregate queries over the same `WHERE` clause. -/
def obter_estatisticas (f : Filtros) (db : DB) : Estatisticas :=
  let rows := db.demandas.filter (matchesFiltrosEstat f)
  { total := rows.length
    pendentes := (rows.filter (fun d => d.status == "Pendente")).length
    em_andamento := (rows.filter (fun d => d.status == "Em andamento")).length
    concluidas := (rows.filter (fun d => d.status == "Concluída")).length
    canceladas := (rows.filter (fun d => d.status == "Cancelada")).length
    urgentes := (rows.filter (fun d => d.urgencia)).length
    total_itens := rows.foldl (fun acc d => acc + d.quantidade) 0
    total_valor := rows.foldl (fun acc d => acc + d.valor.getD 0) 0
    por_departamento := (groupCount (fun d => d.departamento) rows).insertionSort
      (fun a b => b.2 ≤ a.2)
    por_prioridade := (groupCount (fun d => d.prioridade) rows).insertionSort
      (fun a b => prioridadeRank a.1 ≤ prioridadeRank b.1)
    por_status := groupCount (fun d => d.status) rows }

/-- The environment consumed by `enviar_email_nova_demanda`
(`email_service.py`): the `MAIL_ENABLED_NEW`-style toggle, whether a
Brevo API key is configured, and the outcomes the two providers would
return if called.  The subject/body built from the demand fields does
not influence the returned pair and is elided. -/
structure EmailEnv where
  enabled_new : Bool
  brevo_configured : Bool
  brevo_result : Bool × String
  smtp_result : Bool × String
deriving DecidableEq, Repr

/-- `enviar_email_nova_demanda` (`email_service.py` lines 91-149).  The
final `if brevo_ok` fallback at lines 143-147 is unreachable there
(`brevo_ok` is false on that path), leaving the line-149 message. -/
def enviar_email_nova_demanda (env : EmailEnv) : Bool × String :=
  if !env.enabled_new then
    (true, "Envio de email desativado por variável")
  else if env.brevo_configured then
    if env.brevo_result.1 then (true, env.brevo_result.2)
    else if env.smtp_result.1 then
      (true, "API falhou, mas SMTP funcionou. " ++ env.smtp_result.2)
    else
      (false, "API falhou. " ++ env.brevo_result.2 ++ ". SMTP também falhou. " ++ env.smtp_result.2)
  else if env.smtp_result.1 then
    (true, env.smtp_result.2)
  else
    (false, "Falha ao enviar email. " ++ env.smtp_result.2)

/-- The dict returned by a successful `adicionar_demanda`. -/
structure Resultado where
  id : Nat
  codigo : String
  email_ok : Bool
  email_msg : String
deriving DecidableEq, Repr

/-- The row built by the `INSERT INTO demandas` of `adicionar_demanda`
(`data_access.py` lines 268-289), with the `dados.get` defaults of the
source and the column defaults of the schema (`status` `'Pendente'`,
both timestamps `CURRENT_TIMESTAMP`, `estimativa_horas` passed as
`None`). -/
def mkDemanda (id : Nat) (codigo : String) (dados : DadosDemanda) (now : Nat) : Demanda :=
  { id := id
    codigo := codigo
    item := dados.item
    quantidade := dados.quantidade
    solicitante := dados.solicitante
    departamento := dados.departamento
    local_ := some (dados.local_.getD "Gerência")
    prioridade := dados.prioridade
    observacoes := dados.observacoes.getD ""
    status := "Pendente"
    data_criacao := now
    data_atualizacao := now
    categoria := dados.categoria.getD "Geral"
    unidade := dados.unidade.getD "Unid."
    urgencia := dados.urgencia.getD false
    estimativa_horas := none
    almoxarifado := dados.almoxarifado.getD false
    valor := dados.valor }

/-- The `for _ in range(8)` retry loop of `adicionar_demanda`
(`data_access.py` lines 265-325).  `interf` models the rows other
transactions commit between the MAX query and our INSERT of each
attempt — the only interleaving that matters to the unique constraint
on `codigo` (concurrent writers' history rows concern other demand ids
and are elided).  A CheckViolation (`quantidade > 0`) or an aborted
code-generation query escapes the loop to the outer handler, which
returns `None` with our insert rolled back. -/
def tentativas (env : EmailEnv) (prefixo : String) (dados : DadosDemanda) (now : Nat) :
    Nat → DB → List (List Demanda) → DB × Option Resultado
  | 0, db, _ => (db, none)
  | fuel + 1, db, interf =>
    match gerar_codigo_demanda prefixo (db.demandas.map (fun d => d.codigo)) with
    | none => (db, none)
    | some codigo =>
      let db1 : DB := { db with demandas := db.demandas ++ interf.headD [] }
      if dados.quantidade ≤ 0 then
        (db1, none)
      else if db1.demandas.any (fun d => d.codigo == codigo) then
        tentativas env prefixo dados now fuel db1 interf.tail
      else
        let nova := mkDemanda db1.nextDemandaId codigo dados now
        let hist : HistoricoRow :=
          { id := db1.nextHistId
            demanda_id := nova.id
            usuario := dados.solicitante
            acao := "CRIAÇÃO"
            detalhes := .criacao dados
            data_acao := now }
        let db2 : DB :=
          { demandas := db1.demandas ++ [nova]
            historico := db1.historico ++ [hist]
            nextDemandaId := db1.nextDemandaId + 1
            nextHistId := db1.nextHistId + 1 }
        let mail := enviar_email_nova_demanda env
        (db2, some { id := nova.id, codigo := codigo, email_ok := mail.1, email_msg := mail.2 })

/-- `adicionar_demanda` (`data_access.py` lines 257-328): the demand and
its CRIAÇÃO history row are committed together before the e-mail
attempt; the e-mail outcome is folded into the returned dict. -/
def adicionar_demanda (env : EmailEnv) (prefixo : String) (db : DB) (dados : DadosDemanda)
    (now : Nat) (interf : List (List Demanda)) : DB × Option Resultado :=
  tentativas env prefixo dados now 8 db interf

/-- `atualizar_demanda` (`data_access.py` lines 331-382). -/
def atualizar_demanda (db : DB) (demanda_id : Nat) (dados_atualizados : List Atualiza)
    (usuario : String) (now : Nat) : DB × Bool :=
  match db.demandas.find? (fun d => d.id == demanda_id) with
  | none => (db, false)
  | some demanda_antiga =>
    let changed := dados_atualizados.filter (fun a => !(a.unchanged demanda_antiga))
    if changed.isEmpty then
      (db, true)
    else
      let hist : HistoricoRow :=
        { id := db.nextHistId
          demanda_id := demanda_id
          usuario := usuario
          acao := "ATUALIZAÇÃO"
          detalhes := .atualizacao
            (changed.map (fun a => (a.campo, demanda_antiga.fieldVal a.campo)))
            (changed.map (fun a => (a.campo, a.novoVal)))
          data_acao := now }
      let aplicar := fun (d : Demanda) =>
        if d.id == demanda_id then
          { changed.foldl Atualiza.apply d with data_atualizacao := now }
        else d
      ({ db with demandas := db.demandas.map aplicar
                 historico := db.historico ++ [hist]
                 nextHistId := db.nextHistId + 1 }, true)

/-- `excluir_demanda` (`data_access.py` lines 385-398): a bare
`DELETE FROM demandas WHERE id = %s` followed by commit; the history
rows go away through `ON DELETE CASCADE`, no EXCLUSÃO row is written,
and the function returns `True` whether or not a row matched. -/
def excluir_demanda (db : DB) (demanda_id : Nat) : DB × Bool :=
  ({ db with demandas := db.demandas.filter (fun d => !(d.id == demanda_id))
             historico := db.historico.filter (fun h => !(h.demanda_id == demanda_id)) }, true)

/-! Concrete sample data used by witnesses and counterexamples. -/

/-- A sample stored demand. -/
def demandaExemplo : Demanda :=
  { id := 1
    codigo := "141225-01"
    item := "Combustível diesel"
    quantidade := 200
    solicitante := "Maria Silva"
    departamento := "Operação"
    local_ := some "Fogareiro"
    prioridade := "Alta"
    observacoes := ""
    status := "Pendente"
    data_criacao := 10
    data_atualizacao := 10
    categoria := "Geral"
    unidade := "Litro"
    urgencia := false
    estimativa_horas := none
    almoxarifado := false
    valor := none }

/-- An empty database. -/
def dbVazio : DB :=
  { demandas := [], historico := [], nextDemandaId := 1, nextHistId := 1 }

/-- A database holding one demand and no history. -/
def dbExemplo : DB :=
  { demandas := [demandaExemplo], historico := [], nextDemandaId := 2, nextHistId := 1 }

/-- A sample create payload. -/
def dadosExemplo : DadosDemanda :=
  { item := "Combustível diesel"
    quantidade := 200
    solicitante := "Maria Silva"
    departamento := "Operação"
    local_ := some "Fogareiro"
    prioridade := "Alta"
    observacoes := none
    categoria := none
    unidade := some "Litro"
    urgencia := none
    almoxarifado := none
    valor := none }

/-- The CRIAÇÃO audit row of `demandaExemplo`. -/
def historicoCriacaoExemplo : HistoricoRow :=
  { id := 1
    demanda_id := 1
    usuario := "Maria Silva"
    acao := "CRIAÇÃO"
    detalhes := .criacao dadosExemplo
    data_acao := 10 }

/-- A database holding one demand together with its CRIAÇÃO audit row. -/
def dbComHistorico : DB :=
  { demandas := [demandaExemplo]
    historico := [historicoCriacaoExemplo]
    nextDemandaId := 2
    nextHistId := 2 }

/-- An e-mail environment with notifications disabled. -/
def envDesativado : EmailEnv :=
  { enabled_new := false
    brevo_configured := false
    brevo_result := (false, "brevo")
    smtp_result := (false, "smtp") }

/-- A demand row used as a concurrent writer's insertion. -/
def interferente (c : String) : Demanda :=
  { demandaExemplo with id := 900, codigo := c }

/-- Concurrent writers stealing the candidate code of all eight create
attempts over an initially empty table. -/
def interfOito : List (List Demanda) :=
  [[interferente "140125-01"], [interferente "140125-02"], [interferente "140125-03"],
   [interferente "140125-04"], [interferente "140125-05"], [interferente "140125-06"],
   [interferente "140125-07"], [interferente "140125-08"]]

/-! Helper lemmas about the character-level primitives. -/

theorem dropWhile_id_of_not {α : Type} (p : α → Bool) (l : List α)
    (h : ∀ a ∈ l, p a = false) : l.dropWhile p = l := by
  cases l with
  | nil => rfl
  | cons a t => simp [List.dropWhile_cons, h a (by simp)]

theorem pyStripChars_id (l : List Char) (h : ∀ c ∈ l, pyIsSpace c = false) :
    pyStripChars l = l := by
  unfold pyStripChars
  rw [dropWhile_id_of_not _ l h]
  rw [dropWhile_id_of_not _ l.reverse (fun c hc => h c (List.mem_reverse.mp hc))]
  exact List.reverse_reverse l

theorem pgTrimChars_id (l : List Char) (h : ∀ c ∈ l, c.isWhitespace = false) :
    pgTrimChars l = l := by
  unfold pgTrimChars
  rw [dropWhile_id_of_not _ l h]
  rw [dropWhile_id_of_not _ l.reverse (fun c hc => h c (List.mem_reverse.mp hc))]
  exact List.reverse_reverse l

theorem isDigit_toNat_bounds (c : Char) (h : c.isDigit = true) :
    48 ≤ c.toNat ∧ c.toNat ≤ 57 := by
  simp only [Char.isDigit, Bool.and_eq_true_iff, decide_eq_true_eq] at h
  exact ⟨h.1, h.2⟩

theorem isDigit_not_pySpace (c : Char) (h : c.isDigit = true) : pyIsSpace c = false := by
  obtain ⟨h1, h2⟩ := isDigit_toNat_bounds c h
  simp only [pyIsSpace, decide_eq_false_iff_not]
  omega

theorem removeSepsChars_id (l : List Char) (h : ∀ c ∈ l, pySeps.contains c = false) :
    removeSepsChars l = l := by
  unfold removeSepsChars
  refine List.filter_eq_self.mpr ?_
  intro a ha
  simp only [Bool.not_eq_true, h a ha]
  rfl

theorem removeSepsChars_idem (l : List Char) :
    removeSepsChars (removeSepsChars l) = removeSepsChars l := by
  refine removeSepsChars_id _ ?_
  intro c hc
  have := List.of_mem_filter hc
  simpa using this

theorem ws_elim (c : Char) (h : c.isWhitespace = true) :
    c = ' ' ∨ c = '\t' ∨ c = '\r' ∨ c = '\n' := by
  have h2 := h
  simp only [Char.isWhitespace, Bool.or_eq_true, decide_eq_true_eq] at h2
  tauto

theorem isDigit_not_ws (c : Char) (h : c.isDigit = true) : c.isWhitespace = false := by
  cases hw : c.isWhitespace with
  | false => rfl
  | true =>
    rcases ws_elim c hw with rfl | rfl | rfl | rfl <;> exact absurd h (by decide)

theorem isDigit_not_sep (c : Char) (h : c.isDigit = true) : pySeps.contains c = false := by
  cases hs : pySeps.contains c with
  | false => rfl
  | true =>
    have hm : c ∈ pySeps := by simpa using hs
    simp only [pySeps, List.mem_cons, List.not_mem_nil, or_false] at hm
    rcases hm with rfl | rfl | rfl | rfl <;> exact absurd h (by decide)

theorem normalizarChars_fix (l : List Char)
    (hne : l ≠ [])
    (hid : removeSepsChars (pyStripChars l) = l)
    (hcond : (l.length == 8 && l.all (fun c => c.isDigit)) = false) :
    normalizarChars l = l := by
  unfold normalizarChars
  rw [if_neg hne]
  simp only [hid, hcond]
  rfl

/-- C9 counterexample: `normalizar_busca_codigo` does not return every
non-8-digit input merely separator-stripped, and it is not idempotent.
On `"1412.2501"` the separator-stripped text is `"14122501"`, yet the
function returns `"141225-01"`.  On `".\t1"` the first pass returns
`"\t1"` (the dot removal exposed a leading tab the initial `strip` did
not see) and a second pass strips that tab, returning `"1"`. -/
theorem normalizar_busca_codigo_claim_false :
    (normalizar_busca_codigo "1412.2501" = "141225-01" ∧ "141225-01" ≠ "14122501") ∧
    normalizar_busca_codigo (normalizar_busca_codigo ".\t1") ≠ normalizar_busca_codigo ".\t1" := by
  refine ⟨⟨by decide, by decide⟩, by decide⟩

/-- C9 (amended): after stripping surrounding whitespace and the
separators `/`, space, `.`, `_`, an 8-digit result is split 6+2 around a
hyphen and any other result is returned as-is; the function is
idempotent on every input for which the separator removal does not
expose new leading or trailing whitespace (in particular on canonical
codes and on whitespace-free input). -/
theorem normalizar_busca_codigo_amended :
    (∀ s : String, s.data.length = 8 → (∀ c ∈ s.data, c.isDigit = true) →
       normalizar_busca_codigo s = String.mk (s.data.take 6 ++ '-' :: s.data.drop 6)) ∧
    (∀ s : String,
       pyStripChars (removeSepsChars (pyStripChars s.data)) = removeSepsChars (pyStripChars s.data) →
       normalizar_busca_codigo (normalizar_busca_codigo s) = normalizar_busca_codigo s) := by
  constructor
  · intro s hlen hdig
    have hne : s.data ≠ [] := by
      intro h
      rw [h] at hlen
      exact absurd hlen (by decide)
    have hstrip : pyStripChars s.data = s.data :=
      pyStripChars_id _ (fun c hc => isDigit_not_pySpace c (hdig c hc))
    have hsep : removeSepsChars s.data = s.data :=
      removeSepsChars_id _ (fun c hc => isDigit_not_sep c (hdig c hc))
    unfold normalizar_busca_codigo normalizarChars
    rw [if_neg hne]
    simp only [hstrip, hsep]
    have hc : (s.data.length == 8 && s.data.all (fun c => c.isDigit)) = true := by
      refine Bool.and_eq_true_iff.mpr ⟨?_, ?_⟩
      · exact beq_iff_eq.mpr hlen
      · exact List.all_eq_true.mpr hdig
    rw [hc]
    rfl
  · intro s H
    show String.mk (normalizarChars (String.mk (normalizarChars s.data)).data)
        = String.mk (normalizarChars s.data)
    refine congrArg String.mk ?_
    show normalizarChars (normalizarChars s.data) = normalizarChars s.data
    by_cases hnil : s.data = []
    · rw [hnil]
      rfl
    set t := removeSepsChars (pyStripChars s.data) with ht
    have hsep_t : removeSepsChars t = t := by
      rw [ht]
      exact removeSepsChars_idem _
    cases hcond : (t.length == 8 && t.all (fun c => c.isDigit)) with
    | true =>
      have hout : normalizarChars s.data = t.take 6 ++ '-' :: t.drop 6 := by
        unfold normalizarChars
        rw [if_neg hnil]
        simp only [← ht, hcond]
        rfl
      have hlen8 : t.length = 8 := beq_iff_eq.mp (Bool.and_eq_true_iff.mp hcond).1
      have hdig : ∀ c ∈ t, c.isDigit = true :=
        List.all_eq_true.mp (Bool.and_eq_true_iff.mp hcond).2
      set r := t.take 6 ++ '-' :: t.drop 6 with hr
      have hrchars : ∀ c ∈ r, c.isDigit = true ∨ c = '-' := by
        intro c hcmem
        rw [hr] at hcmem
        rcases List.mem_append.mp hcmem with h1 | h2
        · exact Or.inl (hdig c (List.take_subset _ _ h1))
        · rcases List.mem_cons.mp h2 with rfl | h3
          · exact Or.inr rfl
          · exact Or.inl (hdig c (List.drop_subset _ _ h3))
      have hrlen : r.length = 9 := by
        rw [hr]
        simp [List.length_take, List.length_drop, hlen8]
      have hrne : r ≠ [] := by
        intro h
        rw [h] at hrlen
        exact absurd hrlen (by decide)
      have hrstrip : pyStripChars r = r := by
        refine pyStripChars_id _ ?_
        intro c hcmem
        rcases hrchars c hcmem with hd | rfl
        · exact isDigit_not_pySpace c hd
        · decide
      have hrsep : removeSepsChars r = r := by
        refine removeSepsChars_id _ ?_
        intro c hcmem
        rcases hrchars c hcmem with hd | rfl
        · exact isDigit_not_sep c hd
        · decide
      rw [hout]
      refine normalizarChars_fix r hrne (by rw [hrstrip, hrsep]) ?_
      have : (r.length == 8) = false := by
        rw [hrlen]
        decide
      simp [this]
    | false =>
      have hout : normalizarChars s.data = t := by
        unfold normalizarChars
        rw [if_neg hnil]
        simp only [← ht, hcond]
        rfl
      rw [hout]
      by_cases htnil : t = []
      · rw [htnil]
        rfl
      · exact normalizarChars_fix t htnil (by rw [H, hsep_t]) hcond

theorem digitChar_toNat (m : Nat) (h : m < 10) : (Nat.digitChar m).toNat = 48 + m := by
  interval_cases m <;> decide

theorem digitChar_isDigit (m : Nat) (h : m < 10) : (Nat.digitChar m).isDigit = true := by
  interval_cases m <;> decide

theorem isDigit_ne_dash (c : Char) (h : c.isDigit = true) : c ≠ '-' := by
  intro heq
  subst heq
  exact absurd h (by decide)

theorem decDigitsVal_append (l : List Char) (c : Char) :
    decDigitsVal (l ++ [c]) = decDigitsVal l * 10 + (c.toNat - 48) := by
  simp [decDigitsVal, List.foldl_append]

theorem decDigitsVal_cons_zero (l : List Char) :
    decDigitsVal ('0' :: l) = decDigitsVal l := by
  simp [decDigitsVal]

theorem natDecimalCore_spec (fuel : Nat) :
    ∀ n, n < fuel →
      natDecimalCore fuel n ≠ [] ∧
      (∀ c ∈ natDecimalCore fuel n, c.isDigit = true) ∧
      decDigitsVal (natDecimalCore fuel n) = n := by
  induction fuel with
  | zero => intro n h; omega
  | succ fuel ih =>
    intro n h
    by_cases h10 : n < 10
    · refine ⟨?_, ?_, ?_⟩
      · simp [natDecimalCore, h10]
      · intro c hc
        simp only [natDecimalCore, if_pos h10, List.mem_singleton] at hc
        subst hc
        exact digitChar_isDigit n h10
      · simp only [natDecimalCore, if_pos h10]
        show decDigitsVal ([] ++ [Nat.digitChar n]) = n
        rw [decDigitsVal_append]
        rw [digitChar_toNat n h10]
        simp [decDigitsVal]
    · have hdivlt : n / 10 < fuel := by
        have h1 : n / 10 < n := Nat.div_lt_self (by omega) (by omega)
        omega
      obtain ⟨hne, hdig, hval⟩ := ih (n / 10) hdivlt
      have hmod : n % 10 < 10 := Nat.mod_lt _ (by omega)
      refine ⟨?_, ?_, ?_⟩
      · simp [natDecimalCore, h10]
      · intro c hc
        simp only [natDecimalCore, if_neg h10, List.mem_append, List.mem_singleton] at hc
        rcases hc with hc | rfl
        · exact hdig c hc
        · exact digitChar_isDigit _ hmod
      · simp only [natDecimalCore, if_neg h10]
        rw [decDigitsVal_append, hval, digitChar_toNat _ hmod]
        omega

theorem natDecimal_spec (n : Nat) :
    natDecimal n ≠ [] ∧
    (∀ c ∈ natDecimal n, c.isDigit = true) ∧
    decDigitsVal (natDecimal n) = n :=
  natDecimalCore_spec (n + 1) n (Nat.lt_succ_self n)

theorem natDecimal_lt10 (n : Nat) (h : n < 10) : natDecimal n = [Nat.digitChar n] := by
  simp [natDecimal, natDecimalCore, h]

theorem pad2_data_digits (n : Nat) : ∀ c ∈ (pad2 n).data, c.isDigit = true := by
  intro c hc
  unfold pad2 at hc
  by_cases h : n < 10
  · rw [if_pos h] at hc
    have hc2 : c ∈ '0' :: natDecimal n := hc
    rcases List.mem_cons.mp hc2 with rfl | hm
    · decide
    · exact (natDecimal_spec n).2.1 c hm
  · rw [if_neg h] at hc
    exact (natDecimal_spec n).2.1 c hc

theorem pad2_data_ne_nil (n : Nat) : (pad2 n).data ≠ [] := by
  unfold pad2
  by_cases h : n < 10
  · rw [if_pos h]
    simp
  · rw [if_neg h]
    exact (natDecimal_spec n).1

theorem pad2_decval (n : Nat) : decDigitsVal (pad2 n).data = n := by
  unfold pad2
  by_cases h : n < 10
  · rw [if_pos h]
    show decDigitsVal ('0' :: natDecimal n) = n
    rw [decDigitsVal_cons_zero]
    exact (natDecimal_spec n).2.2
  · rw [if_neg h]
    exact (natDecimal_spec n).2.2

theorem dropPlus_id (t : List Char) (h : ∀ c ∈ t, c.isDigit = true) : dropPlus t = t := by
  unfold dropPlus
  split
  · rename_i rest
    exact absurd (h '+' (List.mem_cons_self _ _)) (by decide)
  · rfl

theorem pad2_val (n : Nat) : pg_cast_nat (pad2 n) = some n := by
  have hdig := pad2_data_digits n
  have hne := pad2_data_ne_nil n
  have hstrip : pgTrimChars (pad2 n).data = (pad2 n).data :=
    pgTrimChars_id _ (fun c hc => isDigit_not_ws c (hdig c hc))
  show (if (dropPlus (pgTrimChars (pad2 n).data)).isEmpty then none
        else if (dropPlus (pgTrimChars (pad2 n).data)).all (fun c => c.isDigit) then
          some (decDigitsVal (dropPlus (pgTrimChars (pad2 n).data)))
        else none) = some n
  rw [hstrip, dropPlus_id _ hdig]
  have hie : (pad2 n).data.isEmpty = false := by
    cases hd : (pad2 n).data with
    | nil => exact absurd hd hne
    | cons a t => rfl
  have hall : (pad2 n).data.all (fun c => c.isDigit) = true := List.all_eq_true.mpr hdig
  rw [hie, hall]
  show some (decDigitsVal (pad2 n).data) = some n
  rw [pad2_decval]

theorem pad2_len2 (n : Nat) (h : n ≤ 99) : (pad2 n).data.length = 2 := by
  unfold pad2
  by_cases h10 : n < 10
  · rw [if_pos h10]
    show ('0' :: natDecimal n).length = 2
    rw [natDecimal_lt10 n h10]
    rfl
  · rw [if_neg h10]
    show (natDecimal n).length = 2
    unfold natDecimal
    rw [show natDecimalCore (n + 1) n
          = natDecimalCore n (n / 10) ++ [Nat.digitChar (n % 10)] from by
        simp [natDecimalCore, h10]]
    have hq : n / 10 < 10 := by omega
    obtain ⟨k, rfl⟩ : ∃ k, n = k + 1 := ⟨n - 1, by omega⟩
    rw [show natDecimalCore (k + 1) ((k + 1) / 10)
          = [Nat.digitChar ((k + 1) / 10)] from by simp [natDecimalCore, hq]]
    rfl

theorem splitOnSep_no (sep : Char) (l : List Char) (h : ∀ c ∈ l, c ≠ sep) :
    splitOnSep sep l = [l] := by
  induction l with
  | nil => rfl
  | cons c rest ih =>
    have hc : (c == sep) = false := beq_eq_false_iff_ne.mpr (h c (List.mem_cons_self _ _))
    have hrest := ih (fun x hx => h x (List.mem_cons_of_mem _ hx))
    simp [splitOnSep, hc, hrest]

theorem splitOnSep_append (sep : Char) (a b : List Char) (ha : ∀ c ∈ a, c ≠ sep) :
    splitOnSep sep (a ++ sep :: b) = a :: splitOnSep sep b := by
  induction a with
  | nil => simp [splitOnSep]
  | cons c t ih =>
    have hc : (c == sep) = false := beq_eq_false_iff_ne.mpr (ha c (List.mem_cons_self _ _))
    have iht := ih (fun x hx => ha x (List.mem_cons_of_mem _ hx))
    simp [splitOnSep, hc, iht]

/-- The highest sequence number already recorded under the day prefix,
0 when none exists: this is the specification-side reading of the
`MAX(...)` query of the code generator. -/
def highestSeq (prefixo : String) (codigos : List String) : Nat :=
  ((codigos.filter (fun c => List.isPrefixOf (prefixo ++ "-").data c.data)).filterMap
    (fun c => pg_cast_nat (split_part c '-' 2))).foldl max 0

theorem filterMap_cast_filter_ne (l : List String) :
    (l.filter (fun s => s ≠ "")).filterMap pg_cast_nat = l.filterMap pg_cast_nat := by
  induction l with
  | nil => rfl
  | cons s t ih =>
    by_cases hs : s = ""
    · subst hs
      have h0 : pg_cast_nat "" = none := rfl
      have hd : (decide (("" : String) ≠ "")) = false := by decide
      rw [List.filter_cons, hd, if_neg (by decide), List.filterMap_cons, h0]
      exact ih
    · have hd : (decide (s ≠ "")) = true := by simp [hs]
      rw [List.filter_cons, hd, if_pos rfl, List.filterMap_cons, List.filterMap_cons]
      cases pg_cast_nat s with
      | none => exact ih
      | some v =>
        show v :: List.filterMap pg_cast_nat (List.filter (fun s => decide (s ≠ "")) t)
            = v :: List.filterMap pg_cast_nat t
        rw [ih]

/-- C2 counterexample: with `141225-99` already recorded, the next
generated code is `141225-100`, whose sequence part has three digits —
the `%02d` format zero-pads to a minimum of two digits, it does not cap
at two. -/
theorem gerar_codigo_demanda_claim_false :
    gerar_codigo_demanda "141225" ["141225-99"] = some "141225-100" ∧
    (split_part "141225-100" '-' 2).data.length ≠ 2 := by
  constructor
  · decide
  · decide

/-- C2 (amended): provided every already-stored code under the day
prefix carries a numeric (or absent) sequence suffix — which every code
written by this system does, and without which the SQL cast aborts —
the generator returns `prefixo ++ "-" ++ NN` where `NN` is the decimal
rendering of one plus the highest stored sequence number for that
prefix (0 when none exists, so a fresh day starts at `-01`), zero-padded
to two digits while the value stays below 100 and three or more digits
past that.  The parts are recoverable by splitting on the hyphen. -/
theorem gerar_codigo_demanda_amended (prefixo : String) (codigos : List String)
    (hp : ∀ c ∈ prefixo.data, c ≠ '-')
    (hnum : ∀ c ∈ codigos, List.isPrefixOf (prefixo ++ "-").data c.data = true →
       split_part c '-' 2 = "" ∨ (pg_cast_nat (split_part c '-' 2)).isSome = true) :
    gerar_codigo_demanda prefixo codigos
        = some (prefixo ++ "-" ++ pad2 (highestSeq prefixo codigos + 1)) ∧
    pg_cast_nat (pad2 (highestSeq prefixo codigos + 1))
        = some (highestSeq prefixo codigos + 1) ∧
    split_part (prefixo ++ "-" ++ pad2 (highestSeq prefixo codigos + 1)) '-' 1 = prefixo ∧
    split_part (prefixo ++ "-" ++ pad2 (highestSeq prefixo codigos + 1)) '-' 2
        = pad2 (highestSeq prefixo codigos + 1) ∧
    (highestSeq prefixo codigos + 1 ≤ 99 →
       (pad2 (highestSeq prefixo codigos + 1)).data.length = 2) ∧
    ((∀ c ∈ codigos, List.isPrefixOf (prefixo ++ "-").data c.data = false) →
       gerar_codigo_demanda prefixo codigos = some (prefixo ++ "-" ++ pad2 1)) := by
  have hdata : ∀ k : Nat, (prefixo ++ "-" ++ pad2 k).data
      = prefixo.data ++ '-' :: (pad2 k).data := by
    intro k
    rw [String.data_append, String.data_append]
    show prefixo.data ++ ['-'] ++ (pad2 k).data = _
    rw [List.append_assoc]
    rfl
  have hsplit2 : ∀ k : Nat,
      split_part (prefixo ++ "-" ++ pad2 k) '-' 2 = pad2 k := by
    intro k
    unfold split_part
    rw [hdata k, splitOnSep_append '-' _ _ hp,
      splitOnSep_no '-' _ (fun c hc => isDigit_ne_dash c (pad2_data_digits k c hc))]
    rfl
  have hsplit1 : ∀ k : Nat,
      split_part (prefixo ++ "-" ++ pad2 k) '-' 1 = prefixo := by
    intro k
    unfold split_part
    rw [hdata k, splitOnSep_append '-' _ _ hp,
      splitOnSep_no '-' _ (fun c hc => isDigit_ne_dash c (pad2_data_digits k c hc))]
    rfl
  have hmain : gerar_codigo_demanda prefixo codigos
      = some (prefixo ++ "-" ++ pad2 (highestSeq prefixo codigos + 1)) := by
    simp only [gerar_codigo_demanda]
    have hall : (((codigos.filter
          (fun c => List.isPrefixOf (prefixo ++ "-").data c.data)).map
            (fun c => split_part c '-' 2)).filter (fun s => s ≠ "")).all
          (fun s => (pg_cast_nat s).isSome) = true := by
      refine List.all_eq_true.mpr ?_
      intro s hs
      have hs2 := List.of_mem_filter hs
      have hs3 := List.mem_of_mem_filter hs
      obtain ⟨c, hcmem, rfl⟩ := List.mem_map.mp hs3
      have hcin := List.mem_of_mem_filter hcmem
      have hcpred := List.of_mem_filter hcmem
      rcases hnum c hcin hcpred with hemp | hsome
      · rw [hemp] at hs2
        exact absurd hs2 (by decide)
      · exact hsome
    rw [hall, if_pos rfl]
    refine congrArg some (congrArg (fun z => prefixo ++ "-" ++ pad2 (z + 1)) ?_)
    rw [filterMap_cast_filter_ne, List.filterMap_map]
    rfl
  refine ⟨hmain, pad2_val _, hsplit1 _, hsplit2 _, fun h => pad2_len2 _ h, ?_⟩
  intro hno
  have hfil : codigos.filter (fun c => List.isPrefixOf (prefixo ++ "-").data c.data) = [] := by
    refine List.filter_eq_nil_iff.mpr ?_
    intro a ha
    rw [hno a ha]
    simp
  have hseq : highestSeq prefixo codigos = 0 := by
    unfold highestSeq
    rw [hfil]
    rfl
  rw [hmain, hseq]

/-- C2 witness: the amended statement applied to a concrete day with an
existing code `141225-03`; the generated code is `141225-04`. -/
theorem gerar_codigo_demanda_amended_witness :
    gerar_codigo_demanda "141225" ["141225-03"] = some "141225-04" := by
  have h := (gerar_codigo_demanda_amended "141225" ["141225-03"]
    (by decide) (by decide)).1
  rw [h]
  decide

/-- C9 witness: the amended statement applied to the two inputs the
spec quotes. -/
theorem normalizar_busca_codigo_amended_witness :
    normalizar_busca_codigo "14122501" = "141225-01" ∧
    normalizar_busca_codigo (normalizar_busca_codigo "141225-01")
      = normalizar_busca_codigo "141225-01" := by
  constructor
  · have h := normalizar_busca_codigo_amended.1 "14122501" (by decide)
      (by intro c hc; revert c hc; decide)
    rw [h]
    decide
  · exact normalizar_busca_codigo_amended.2 "141225-01" (by decide)

/-- One unfolding step of the create retry loop, with the let bindings
of the definition spelled out. -/
theorem tentativas_succ (env : EmailEnv) (prefixo : String) (dados : DadosDemanda) (now : Nat)
    (fuel : Nat) (db : DB) (interf : List (List Demanda)) :
    tentativas env prefixo dados now (fuel + 1) db interf
      = match gerar_codigo_demanda prefixo (db.demandas.map (fun d => d.codigo)) with
        | none => (db, none)
        | some codigo =>
          if dados.quantidade ≤ 0 then
            ({ db with demandas := db.demandas ++ interf.headD [] }, none)
          else if ({ db with demandas := db.demandas ++ interf.headD [] } : DB).demandas.any
              (fun d => d.codigo == codigo) then
            tentativas env prefixo dados now fuel
              { db with demandas := db.demandas ++ interf.headD [] } interf.tail
          else
            ({ demandas := db.demandas ++ interf.headD []
                 ++ [mkDemanda db.nextDemandaId codigo dados now]
               historico := db.historico
                 ++ [{ id := db.nextHistId, demanda_id := db.nextDemandaId,
                       usuario := dados.solicitante, acao := "CRIAÇÃO",
                       detalhes := .criacao dados, data_acao := now }]
               nextDemandaId := db.nextDemandaId + 1
               nextHistId := db.nextHistId + 1 },
             some { id := db.nextDemandaId, codigo := codigo,
                    email_ok := (enviar_email_nova_demanda env).1,
                    email_msg := (enviar_email_nova_demanda env).2 }) := rfl

/-- The retry step when the code-generation query aborts. -/
theorem tentativas_step_none (env : EmailEnv) (prefixo : String) (dados : DadosDemanda)
    (now : Nat) (fuel : Nat) (db : DB) (interf : List (List Demanda))
    (hg : gerar_codigo_demanda prefixo (db.demandas.map (fun d => d.codigo)) = none) :
    tentativas env prefixo dados now (fuel + 1) db interf = (db, none) := by
  rw [tentativas_succ, hg]

/-- The retry step when a candidate code was generated. -/
theorem tentativas_step_some (env : EmailEnv) (prefixo : String) (dados : DadosDemanda)
    (now : Nat) (fuel : Nat) (db : DB) (interf : List (List Demanda)) (codigo : String)
    (hg : gerar_codigo_demanda prefixo (db.demandas.map (fun d => d.codigo)) = some codigo) :
    tentativas env prefixo dados now (fuel + 1) db interf
      = if dados.quantidade ≤ 0 then
          ({ db with demandas := db.demandas ++ interf.headD [] }, none)
        else if ({ db with demandas := db.demandas ++ interf.headD [] } : DB).demandas.any
            (fun d => d.codigo == codigo) then
          tentativas env prefixo dados now fuel
            { db with demandas := db.demandas ++ interf.headD [] } interf.tail
        else
          ({ demandas := db.demandas ++ interf.headD []
               ++ [mkDemanda db.nextDemandaId codigo dados now]
             historico := db.historico
               ++ [{ id := db.nextHistId, demanda_id := db.nextDemandaId,
                     usuario := dados.solicitante, acao := "CRIAÇÃO",
                     detalhes := .criacao dados, data_acao := now }]
             nextDemandaId := db.nextDemandaId + 1
             nextHistId := db.nextHistId + 1 },
           some { id := db.nextDemandaId, codigo := codigo,
                  email_ok := (enviar_email_nova_demanda env).1,
                  email_msg := (enviar_email_nova_demanda env).2 }) := by
  rw [tentativas_succ, hg]

/-- C4: creating a demand whose `quantidade` is 0 violates the
`quantidade > 0` check constraint; the CheckViolation is not caught by
the retry loop (which only catches UniqueViolation), the outer handler
returns `None`, and because the demand insert and its CRIAÇÃO history
insert sit in the same uncommitted transaction, neither a `demandas`
row nor a `historico_demandas` row is persisted — the state comes back
unchanged. -/
theorem adicionar_demanda_quantidade_zero (env : EmailEnv) (prefixo : String) (db : DB)
    (dados : DadosDemanda) (now : Nat) (h : dados.quantidade = 0) :
    adicionar_demanda env prefixo db dados now [] = (db, none) := by
  show tentativas env prefixo dados now (7 + 1) db [] = (db, none)
  rw [tentativas_succ]
  cases gerar_codigo_demanda prefixo (db.demandas.map (fun d => d.codigo)) with
  | none => rfl
  | some codigo =>
    have hq : dados.quantidade ≤ 0 := le_of_eq h
    show (if dados.quantidade ≤ 0 then _ else _) = _
    rw [if_pos hq]
    show ({ db with demandas := db.demandas ++ ([] : List (List Demanda)).headD [] },
          (none : Option Resultado)) = (db, none)
    simp

/-- C4 witness: the theorem applied to a concrete zero-quantity payload
over the sample database. -/
theorem adicionar_demanda_quantidade_zero_witness :
    adicionar_demanda envDesativado "141225" dbExemplo
      { dadosExemplo with quantidade := 0 } 11 [] = (dbExemplo, none) :=
  adicionar_demanda_quantidade_zero envDesativado "141225" dbExemplo
    { dadosExemplo with quantidade := 0 } 11 rfl

/-- C7 counterexample: deleting a nonexistent demand id is a no-op that
returns `True`, not a falsy failure — `excluir_demanda` issues the
`DELETE`, commits, and returns `True` whether or not any row matched. -/
theorem excluir_demanda_missing_claim_false :
    excluir_demanda dbVazio 1 = (dbVazio, true) := by
  decide

/-- C7 (amended): for an id absent from the table, `atualizar_demanda`
changes nothing and reports failure (`False`), while `excluir_demanda`
changes nothing, does not crash, but reports success (`True`). -/
theorem missing_id_noop (db : DB) (demanda_id : Nat) (payload : List Atualiza)
    (usuario : String) (now : Nat)
    (hd : ∀ d ∈ db.demandas, d.id ≠ demanda_id)
    (hh : ∀ h ∈ db.historico, h.demanda_id ≠ demanda_id) :
    atualizar_demanda db demanda_id payload usuario now = (db, false) ∧
    excluir_demanda db demanda_id = (db, true) := by
  constructor
  · unfold atualizar_demanda
    have hf : db.demandas.find? (fun d => d.id == demanda_id) = none := by
      refine List.find?_eq_none.mpr ?_
      intro d hdm
      simpa using hd d hdm
    rw [hf]
  · unfold excluir_demanda
    have h1 : db.demandas.filter (fun d => !(d.id == demanda_id)) = db.demandas := by
      refine List.filter_eq_self.mpr ?_
      intro d hdm
      simpa using hd d hdm
    have h2 : db.historico.filter (fun h => !(h.demanda_id == demanda_id)) = db.historico := by
      refine List.filter_eq_self.mpr ?_
      intro x hxm
      simpa using hh x hxm
    rw [h1, h2]

/-- C7 witness: the amended statement on the empty database. -/
theorem missing_id_noop_witness :
    atualizar_demanda dbVazio 1 [] "u" 0 = (dbVazio, false) ∧
    excluir_demanda dbVazio 1 = (dbVazio, true) :=
  missing_id_noop dbVazio 1 [] "u" 0 (by simp [dbVazio]) (by simp [dbVazio])

/-- Trace of the create retry loop: a `None` outcome consumes some
number of interference rounds bounded by the fuel and leaves only the
concurrent writers' rows, never our demand and never a history row; a
successful outcome appends exactly our demand row and its CRIAÇÃO
history row on top of the consumed interference. -/
theorem tentativas_trace (env : EmailEnv) (prefixo : String) (dados : DadosDemanda)
    (now : Nat) (hq : 0 < dados.quantidade) :
    ∀ (fuel : Nat) (db : DB) (interf : List (List Demanda)),
      ((tentativas env prefixo dados now fuel db interf).2 = none →
        ∃ k, k ≤ fuel ∧
          (tentativas env prefixo dados now fuel db interf).1.demandas
            = db.demandas ++ (interf.take k).flatten ∧
          (tentativas env prefixo dados now fuel db interf).1.historico = db.historico) ∧
      (∀ r, (tentativas env prefixo dados now fuel db interf).2 = some r →
        r.id = db.nextDemandaId ∧
        ∃ k, k ≤ fuel ∧
          (tentativas env prefixo dados now fuel db interf).1.demandas
            = db.demandas ++ (interf.take k).flatten
              ++ [mkDemanda db.nextDemandaId r.codigo dados now] ∧
          (tentativas env prefixo dados now fuel db interf).1.historico
            = db.historico
              ++ [{ id := db.nextHistId, demanda_id := db.nextDemandaId,
                    usuario := dados.solicitante, acao := "CRIAÇÃO",
                    detalhes := .criacao dados, data_acao := now }]) := by
  intro fuel
  induction fuel with
  | zero =>
    intro db interf
    constructor
    · intro _
      exact ⟨0, Nat.le_refl 0, by simp [tentativas], rfl⟩
    · intro r hr
      exact absurd hr (by simp [tentativas])
  | succ fuel ih =>
    intro db interf
    cases hg : gerar_codigo_demanda prefixo (db.demandas.map (fun d => d.codigo)) with
    | none =>
      rw [tentativas_step_none env prefixo dados now fuel db interf hg]
      constructor
      · intro _
        exact ⟨0, by omega, by simp, rfl⟩
      · intro r hr
        exact absurd hr (by simp)
    | some codigo =>
      rw [tentativas_step_some env prefixo dados now fuel db interf codigo hg]
      have hqn : ¬ (dados.quantidade ≤ 0) := by omega
      rw [if_neg hqn]
      by_cases hcol : ({ db with demandas := db.demandas ++ interf.headD [] } : DB).demandas.any
          (fun d => d.codigo == codigo)
      · rw [if_pos hcol]
        obtain ⟨ihn, ihs⟩ :=
          ih { db with demandas := db.demandas ++ interf.headD [] } interf.tail
        constructor
        · intro hnone
          obtain ⟨k, hk, hdem, hhist⟩ := ihn hnone
          refine ⟨k + 1, by omega, ?_, hhist⟩
          rw [hdem]
          cases interf with
          | nil => simp
          | cons a rest => simp [List.append_assoc]
        · intro r hr
          obtain ⟨hid, k, hk, hdem, hhist⟩ := ihs r hr
          refine ⟨hid, k + 1, by omega, ?_, hhist⟩
          rw [hdem]
          cases interf with
          | nil => simp
          | cons a rest => simp [List.append_assoc]
      · rw [if_neg hcol]
        constructor
        · intro hnone
          exact absurd hnone (by simp)
        · intro r hr
          have hr2 : ({ id := db.nextDemandaId, codigo := codigo,
                        email_ok := (enviar_email_nova_demanda env).1,
                        email_msg := (enviar_email_nova_demanda env).2 } : Resultado) = r :=
            Option.some.inj hr
          subst hr2
          refine ⟨rfl, 1, by omega, ?_, rfl⟩
          cases interf with
          | nil => simp
          | cons a rest => simp

/-- The e-mail environment influences only the `email_ok`/`email_msg`
components of the returned dict: the database outcome and the returned
id and code are the same for any two environments, and the reported
pair is exactly the dispatcher's result. -/
theorem tentativas_env_indep (prefixo : String) (dados : DadosDemanda) (now : Nat)
    (env1 env2 : EmailEnv) :
    ∀ (fuel : Nat) (db : DB) (interf : List (List Demanda)),
      (tentativas env1 prefixo dados now fuel db interf).1
        = (tentativas env2 prefixo dados now fuel db interf).1 ∧
      Option.map (fun r => (r.id, r.codigo))
          (tentativas env1 prefixo dados now fuel db interf).2
        = Option.map (fun r => (r.id, r.codigo))
          (tentativas env2 prefixo dados now fuel db interf).2 ∧
      (∀ r, (tentativas env1 prefixo dados now fuel db interf).2 = some r →
        (r.email_ok, r.email_msg) = enviar_email_nova_demanda env1) := by
  intro fuel
  induction fuel with
  | zero =>
    intro db interf
    exact ⟨rfl, rfl, fun r hr => absurd hr (by simp [tentativas])⟩
  | succ fuel ih =>
    intro db interf
    cases hg : gerar_codigo_demanda prefixo (db.demandas.map (fun d => d.codigo)) with
    | none =>
      rw [tentativas_step_none env1 prefixo dados now fuel db interf hg,
        tentativas_step_none env2 prefixo dados now fuel db interf hg]
      exact ⟨rfl, rfl, fun r hr => absurd hr (by simp)⟩
    | some codigo =>
      rw [tentativas_step_some env1 prefixo dados now fuel db interf codigo hg,
        tentativas_step_some env2 prefixo dados now fuel db interf codigo hg]
      by_cases hq0 : dados.quantidade ≤ 0
      · rw [if_pos hq0, if_pos hq0]
        exact ⟨rfl, rfl, fun r hr => absurd hr (by simp)⟩
      · rw [if_neg hq0, if_neg hq0]
        by_cases hcol : ({ db with demandas := db.demandas ++ interf.headD [] } : DB).demandas.any
            (fun d => d.codigo == codigo)
        · rw [if_pos hcol, if_pos hcol]
          exact ih _ _
        · rw [if_neg hcol, if_neg hcol]
          refine ⟨rfl, rfl, ?_⟩
          intro r hr
          have hr2 : ({ id := db.nextDemandaId, codigo := codigo,
                        email_ok := (enviar_email_nova_demanda env1).1,
                        email_msg := (enviar_email_nova_demanda env1).2 } : Resultado) = r :=
            Option.some.inj hr
          subst hr2
          rfl

/-- C3: the create operation retries on unique-constraint collisions
with a freshly generated code, keeping the transaction's own work
rolled back, for at most 8 insert attempts in total.  With a valid
quantity, a falsy (`None`) outcome leaves the table holding only the
original rows plus at most 8 rounds of concurrent writers' rows — no
demand of ours and no history row was created — while a successful
outcome appends exactly our row after at most 8 rounds. -/
theorem adicionar_demanda_retry_bound (env : EmailEnv) (prefixo : String) (db : DB)
    (dados : DadosDemanda) (now : Nat) (interf : List (List Demanda))
    (hq : 0 < dados.quantidade) :
    ((adicionar_demanda env prefixo db dados now interf).2 = none →
      ∃ k, k ≤ 8 ∧
        (adicionar_demanda env prefixo db dados now interf).1.demandas
          = db.demandas ++ (interf.take k).flatten ∧
        (adicionar_demanda env prefixo db dados now interf).1.historico = db.historico) ∧
    (∀ r, (adicionar_demanda env prefixo db dados now interf).2 = some r →
      ∃ k, k ≤ 8 ∧
        (adicionar_demanda env prefixo db dados now interf).1.demandas
          = db.demandas ++ (interf.take k).flatten
            ++ [mkDemanda db.nextDemandaId r.codigo dados now]) := by
  obtain ⟨hn, hs⟩ := tentativas_trace env prefixo dados now hq 8 db interf
  refine ⟨hn, ?_⟩
  intro r hr
  obtain ⟨_, k, hk, hdem, _⟩ := hs r hr
  exact ⟨k, hk, hdem⟩

/-- C3 witness: eight consecutive code collisions over an empty table
exhaust the retries; the operation reports failure and the table holds
only the eight concurrent writers' rows. -/
theorem adicionar_demanda_retry_bound_witness :
    0 < dadosExemplo.quantidade ∧
    (adicionar_demanda envDesativado "140125" dbVazio dadosExemplo 5 interfOito).2 = none ∧
    (∃ k, k ≤ 8 ∧
      (adicionar_demanda envDesativado "140125" dbVazio dadosExemplo 5 interfOito).1.demandas
        = dbVazio.demandas ++ ((interfOito.take k).flatten) ∧
      (adicionar_demanda envDesativado "140125" dbVazio dadosExemplo 5 interfOito).1.historico
        = dbVazio.historico) := by
  refine ⟨by decide, by decide, ?_⟩
  exact (adicionar_demanda_retry_bound envDesativado "140125" dbVazio dadosExemplo 5
    interfOito (by decide)).1 (by decide)

/-- C8: the demand and its CRIAÇÃO history row are committed before the
e-mail attempt, so the notification outcome can neither fail nor roll
back the creation: for any two e-mail environments the resulting
database states and the returned id and code coincide, the creation
succeeds or fails identically, and the notification result is only
reported alongside the success as the `email_ok`/`email_msg` fields. -/
theorem adicionar_demanda_email_best_effort (prefixo : String) (db : DB)
    (dados : DadosDemanda) (now : Nat) (interf : List (List Demanda))
    (env1 env2 : EmailEnv) :
    (adicionar_demanda env1 prefixo db dados now interf).1
      = (adicionar_demanda env2 prefixo db dados now interf).1 ∧
    Option.map (fun r => (r.id, r.codigo))
        (adicionar_demanda env1 prefixo db dados now interf).2
      = Option.map (fun r => (r.id, r.codigo))
        (adicionar_demanda env2 prefixo db dados now interf).2 ∧
    (∀ r, (adicionar_demanda env1 prefixo db dados now interf).2 = some r →
      (r.email_ok, r.email_msg) = enviar_email_nova_demanda env1) :=
  tentativas_env_indep prefixo dados now env1 env2 8 db interf

/-- An e-mail environment in which both providers fail. -/
def envFalhou : EmailEnv :=
  { enabled_new := true
    brevo_configured := true
    brevo_result := (false, "x")
    smtp_result := (false, "y") }

/-- C8 witness: creation with both providers failing yields the same
state and id/code as with notifications disabled, and reports the
dispatcher's failure message alongside the success. -/
theorem adicionar_demanda_email_best_effort_witness :
    (adicionar_demanda envFalhou "141225" dbVazio dadosExemplo 5 []).1
      = (adicionar_demanda envDesativado "141225" dbVazio dadosExemplo 5 []).1 ∧
    ({ id := 1, codigo := "141225-01", email_ok := false,
       email_msg := "API falhou. x. SMTP também falhou. y" } : Resultado).email_ok
        = (enviar_email_nova_demanda envFalhou).1 := by
  have h := adicionar_demanda_email_best_effort "141225" dbVazio dadosExemplo 5 []
    envFalhou envDesativado
  refine ⟨h.1, ?_⟩
  have h3 := h.2.2
    { id := 1, codigo := "141225-01", email_ok := false,
      email_msg := "API falhou. x. SMTP também falhou. y" } (by decide)
  exact congrArg Prod.fst h3

/-- `atualizar_demanda` when the row is absent. -/
theorem atualizar_step_none (db : DB) (demanda_id : Nat) (payload : List Atualiza)
    (usuario : String) (now : Nat)
    (hf : db.demandas.find? (fun d => d.id == demanda_id) = none) :
    atualizar_demanda db demanda_id payload usuario now = (db, false) := by
  unfold atualizar_demanda
  rw [hf]

/-- `atualizar_demanda` when the row was found, with the let bindings of
the definition spelled out. -/
theorem atualizar_step_some (db : DB) (demanda_id : Nat) (payload : List Atualiza)
    (usuario : String) (now : Nat) (antiga : Demanda)
    (hf : db.demandas.find? (fun d => d.id == demanda_id) = some antiga) :
    atualizar_demanda db demanda_id payload usuario now
      = if (payload.filter (fun a => !(a.unchanged antiga))).isEmpty then
          (db, true)
        else
          ({ db with
               demandas := db.demandas.map (fun d =>
                 if d.id == demanda_id then
                   { (payload.filter (fun a => !(a.unchanged antiga))).foldl
                       Atualiza.apply d with
                     data_atualizacao := now }
                 else d)
               historico := db.historico
                 ++ [{ id := db.nextHistId, demanda_id := demanda_id, usuario := usuario,
                       acao := "ATUALIZAÇÃO",
                       detalhes := .atualizacao
                         ((payload.filter (fun a => !(a.unchanged antiga))).map
                           (fun a => (a.campo, antiga.fieldVal a.campo)))
                         ((payload.filter (fun a => !(a.unchanged antiga))).map
                           (fun a => (a.campo, a.novoVal)))
                       data_acao := now }]
               nextHistId := db.nextHistId + 1 }, true) := by
  unfold atualizar_demanda
  rw [hf]

/-- C1 counterexample: a successful delete inserts no EXCLUSÃO history
row; it removes the demand and, through `ON DELETE CASCADE`, its whole
audit history — afterwards zero history rows exist for the demand at
all, where the claim demands exactly one EXCLUSÃO row. -/
theorem excluir_demanda_no_exclusao_row :
    (excluir_demanda dbComHistorico 1).2 = true ∧
    ((excluir_demanda dbComHistorico 1).1.historico.filter
      (fun h => h.acao == "EXCLUSÃO")).length = 0 ∧
    (excluir_demanda dbComHistorico 1).1.historico = [] := by
  refine ⟨rfl, by decide, by decide⟩

/-- C1 (amended): a successful create appends exactly one CRIAÇÃO
history row in the same transaction; a successful update appends
exactly one ATUALIZAÇÃO row when at least one field changed and nothing
at all when the update was a no-op; a delete appends no history row —
instead the deleted demand's history rows vanish with it through
`ON DELETE CASCADE`, so the surviving history is a sublist of the old
one. -/
theorem audit_trail_amended :
    (∀ (env : EmailEnv) (prefixo : String) (db : DB) (dados : DadosDemanda) (now : Nat)
        (interf : List (List Demanda)) (db' : DB) (r : Resultado),
      0 < dados.quantidade →
      adicionar_demanda env prefixo db dados now interf = (db', some r) →
      db'.historico = db.historico
        ++ [{ id := db.nextHistId, demanda_id := r.id, usuario := dados.solicitante,
              acao := "CRIAÇÃO", detalhes := .criacao dados, data_acao := now }]) ∧
    (∀ (db : DB) (demanda_id : Nat) (payload : List Atualiza) (usuario : String)
        (now : Nat) (db' : DB),
      atualizar_demanda db demanda_id payload usuario now = (db', true) →
      db' = db ∨
      ∃ h : HistoricoRow, db'.historico = db.historico ++ [h] ∧
        h.acao = "ATUALIZAÇÃO" ∧ h.demanda_id = demanda_id) ∧
    (∀ (db : DB) (demanda_id : Nat),
      (excluir_demanda db demanda_id).1.historico
        = db.historico.filter (fun h => !(h.demanda_id == demanda_id)) ∧
      (excluir_demanda db demanda_id).1.historico.Sublist db.historico ∧
      (excluir_demanda db demanda_id).2 = true) := by
  refine ⟨?_, ?_, ?_⟩
  · intro env prefixo db dados now interf db' r hq heq
    obtain ⟨hid, k, hk, hdem, hhist⟩ :=
      (tentativas_trace env prefixo dados now hq 8 db interf).2 r
        (by rw [show tentativas env prefixo dados now 8 db interf
              = adicionar_demanda env prefixo db dados now interf from rfl, heq])
    have hdb : (tentativas env prefixo dados now 8 db interf).1 = db' := by
      rw [show tentativas env prefixo dados now 8 db interf
            = adicionar_demanda env prefixo db dados now interf from rfl, heq]
    rw [← hdb, hhist, hid]
  · intro db demanda_id payload usuario now db' heq
    cases hf : db.demandas.find? (fun d => d.id == demanda_id) with
    | none =>
      rw [atualizar_step_none db demanda_id payload usuario now hf] at heq
      exact absurd (congrArg Prod.snd heq) (by simp)
    | some antiga =>
      rw [atualizar_step_some db demanda_id payload usuario now antiga hf] at heq
      by_cases hch : (payload.filter (fun a => !(a.unchanged antiga))).isEmpty
      · rw [if_pos hch] at heq
        exact Or.inl (congrArg Prod.fst heq).symm
      · rw [if_neg hch] at heq
        refine Or.inr
          ⟨{ id := db.nextHistId, demanda_id := demanda_id, usuario := usuario,
             acao := "ATUALIZAÇÃO",
             detalhes := .atualizacao
               ((payload.filter (fun a => !(a.unchanged antiga))).map
                 (fun a => (a.campo, antiga.fieldVal a.campo)))
               ((payload.filter (fun a => !(a.unchanged antiga))).map
                 (fun a => (a.campo, a.novoVal)))
             data_acao := now }, ?_, rfl, rfl⟩
        simp only [Prod.mk.injEq, and_true] at heq
        rw [← heq]
  · intro db demanda_id
    exact ⟨rfl, List.filter_sublist _, rfl⟩

/-- C1 witness: a concrete successful create over the empty database
appends exactly the CRIAÇÃO row, and a concrete changing update
appends exactly one ATUALIZAÇÃO row. -/
theorem audit_trail_amended_witness :
    (adicionar_demanda envDesativado "141225" dbVazio dadosExemplo 5 []).1.historico
      = dbVazio.historico
        ++ [{ id := dbVazio.nextHistId, demanda_id := 1,
              usuario := dadosExemplo.solicitante, acao := "CRIAÇÃO",
              detalhes := .criacao dadosExemplo, data_acao := 5 }] ∧
    ((atualizar_demanda dbExemplo 1 [.status "Em andamento"] "u" 11).1 = dbExemplo ∨
      ∃ h : HistoricoRow,
        (atualizar_demanda dbExemplo 1 [.status "Em andamento"] "u" 11).1.historico
          = dbExemplo.historico ++ [h] ∧ h.acao = "ATUALIZAÇÃO" ∧ h.demanda_id = 1) := by
  constructor
  · refine audit_trail_amended.1 envDesativado "141225" dbVazio dadosExemplo 5 []
      (adicionar_demanda envDesativado "141225" dbVazio dadosExemplo 5 []).1
      { id := 1, codigo := "141225-01", email_ok := true,
        email_msg := "Envio de email desativado por variável" } (by decide) ?_
    have : (adicionar_demanda envDesativado "141225" dbVazio dadosExemplo 5 []).2
        = some { id := 1, codigo := "141225-01", email_ok := true,
                 email_msg := "Envio de email desativado por variável" } := by decide
    exact Prod.ext rfl this
  · exact audit_trail_amended.2.1 dbExemplo 1 [.status "Em andamento"] "u" 11
      (atualizar_demanda dbExemplo 1 [.status "Em andamento"] "u" 11).1
      (Prod.ext rfl (by decide))

/-! Helper lemmas about applying update entries to a row. -/

theorem apply_fieldVal (a : Atualiza) (d : Demanda) (c : Campo) :
    (a.apply d).fieldVal c = if a.campo == c then a.novoVal else d.fieldVal c := by
  cases a <;> cases c <;> rfl

theorem apply_id (a : Atualiza) (d : Demanda) : (a.apply d).id = d.id := by
  cases a <;> rfl

theorem apply_data_criacao (a : Atualiza) (d : Demanda) :
    (a.apply d).data_criacao = d.data_criacao := by
  cases a <;> rfl

theorem foldl_apply_id (l : List Atualiza) (d : Demanda) :
    (l.foldl Atualiza.apply d).id = d.id := by
  induction l generalizing d with
  | nil => rfl
  | cons a t ih => rw [List.foldl_cons, ih, apply_id]

theorem foldl_apply_data_criacao (l : List Atualiza) (d : Demanda) :
    (l.foldl Atualiza.apply d).data_criacao = d.data_criacao := by
  induction l generalizing d with
  | nil => rfl
  | cons a t ih => rw [List.foldl_cons, ih, apply_data_criacao]

theorem bump_fieldVal (d : Demanda) (now : Nat) (c : Campo) :
    ({ d with data_atualizacao := now } : Demanda).fieldVal c = d.fieldVal c := by
  cases c <;> rfl

theorem foldl_apply_fieldVal (l : List Atualiza) (d : Demanda) (c : Campo)
    (hnd : (l.map Atualiza.campo).Nodup) :
    (l.foldl Atualiza.apply d).fieldVal c
      = match l.find? (fun a => a.campo == c) with
        | some a => a.novoVal
        | none => d.fieldVal c := by
  induction l generalizing d with
  | nil => rfl
  | cons a t ih =>
    rw [List.map_cons, List.nodup_cons] at hnd
    rw [List.foldl_cons]
    by_cases hpa : (a.campo == c) = true
    · have hpa2 : ((fun b : Atualiza => b.campo == c) a) = true := hpa
      rw [List.find?_cons_of_pos t hpa2]
      have hnone : t.find? (fun b => b.campo == c) = none := by
        refine List.find?_eq_none.mpr ?_
        intro b hb
        have hbc : b.campo ≠ a.campo := by
          intro hbeq
          exact hnd.1 (hbeq ▸ List.mem_map_of_mem Atualiza.campo hb)
        have hac : a.campo = c := beq_iff_eq.mp hpa
        simp [hac ▸ hbc]
      rw [ih (a.apply d) hnd.2, hnone, apply_fieldVal, if_pos hpa]
    · have hpa2 : ¬ ((fun b : Atualiza => b.campo == c) a) = true := hpa
      rw [List.find?_cons_of_neg t hpa2]
      rw [ih (a.apply d) hnd.2]
      cases t.find? (fun b => b.campo == c) with
      | none =>
        rw [apply_fieldVal, if_neg (by simpa using hpa)]
      | some b => rfl

theorem find?_filter_comm {α : Type} (l : List α) (p q : α → Bool) :
    (l.filter q).find? p = l.find? (fun a => p a && q a) := by
  induction l with
  | nil => rfl
  | cons a t ih =>
    rw [List.filter_cons]
    by_cases hq : q a = true
    · rw [if_pos hq]
      by_cases hp : p a = true
      · rw [List.find?_cons_of_pos (t.filter q) hp,
          List.find?_cons_of_pos t (show (fun a => p a && q a) a = true by simp [hp, hq])]
      · rw [List.find?_cons_of_neg (t.filter q) hp,
          List.find?_cons_of_neg t (show ¬ ((fun a => p a && q a) a) = true by simp [hp]), ih]
    · rw [if_neg hq,
        List.find?_cons_of_neg t (show ¬ ((fun a => p a && q a) a) = true by simp [hq]), ih]

theorem find?_map_comm {α : Type} (l : List α) (g : α → α) (p : α → Bool)
    (hg : ∀ x, p (g x) = p x) :
    (l.map g).find? p = (l.find? p).map g := by
  induction l with
  | nil => rfl
  | cons a t ih =>
    rw [List.map_cons]
    by_cases hp : p a = true
    · rw [List.find?_cons_of_pos (t.map g) ((hg a).trans hp), List.find?_cons_of_pos t hp]
      rfl
    · rw [List.find?_cons_of_neg (t.map g) (show ¬ p (g a) = true by simp [hg a, hp]),
        List.find?_cons_of_neg t hp, ih]

/-- C5: on an existing demand, `atualizar_demanda` reports success;
when no supplied field differs from the stored values it is a complete
no-op (the whole state, including `data_atualizacao`, is returned
unchanged and no history row is written); when at least one field
differs, it appends exactly one ATUALIZAÇÃO history row whose
`antigo`/`novo` maps range over exactly the differing fields, leaves
every other demand untouched, and the stored row afterwards carries the
supplied value on each differing field, the old value on every other
column, the old creation timestamp, and `data_atualizacao = now`.
Hypotheses: the payload addresses each column at most once (dict keys
are unique) and the `id` column is a primary key. -/
theorem atualizar_demanda_spec (db : DB) (demanda_id : Nat) (payload : List Atualiza)
    (usuario : String) (now : Nat) (antiga : Demanda)
    (hfind : db.demandas.find? (fun d => d.id == demanda_id) = some antiga)
    (hnd : (payload.map Atualiza.campo).Nodup) :
    (atualizar_demanda db demanda_id payload usuario now).2 = true ∧
    ((∀ a ∈ payload, a.unchanged antiga = true) →
      atualizar_demanda db demanda_id payload usuario now = (db, true)) ∧
    (payload.filter (fun a => !(a.unchanged antiga)) ≠ [] →
      ((atualizar_demanda db demanda_id payload usuario now).1.historico
        = db.historico
          ++ [{ id := db.nextHistId, demanda_id := demanda_id, usuario := usuario,
                acao := "ATUALIZAÇÃO",
                detalhes := .atualizacao
                  ((payload.filter (fun a => !(a.unchanged antiga))).map
                    (fun a => (a.campo, antiga.fieldVal a.campo)))
                  ((payload.filter (fun a => !(a.unchanged antiga))).map
                    (fun a => (a.campo, a.novoVal)))
                data_acao := now }] ∧
       (∀ d ∈ db.demandas, d.id ≠ demanda_id →
         d ∈ (atualizar_demanda db demanda_id payload usuario now).1.demandas) ∧
       (∃ nova : Demanda,
         (atualizar_demanda db demanda_id payload usuario now).1.demandas.find?
             (fun d => d.id == demanda_id) = some nova ∧
         nova.id = antiga.id ∧
         nova.data_criacao = antiga.data_criacao ∧
         nova.data_atualizacao = now ∧
         (∀ c : Campo, nova.fieldVal c
           = match payload.find? (fun a => a.campo == c && !(a.unchanged antiga)) with
             | some a => a.novoVal
             | none => antiga.fieldVal c)))) := by
  have hstep := atualizar_step_some db demanda_id payload usuario now antiga hfind
  refine ⟨?_, ?_, ?_⟩
  · rw [hstep]
    by_cases hch : (payload.filter (fun a => !(a.unchanged antiga))).isEmpty
    · rw [if_pos hch]
    · rw [if_neg hch]
  · intro hall
    have hnil : payload.filter (fun a => !(a.unchanged antiga)) = [] := by
      refine List.filter_eq_nil_iff.mpr ?_
      intro a ha
      simp [hall a ha]
    rw [hstep, if_pos (by rw [hnil]; rfl)]
  · intro hne
    have hch : (payload.filter (fun a => !(a.unchanged antiga))).isEmpty = false := by
      cases hl : payload.filter (fun a => !(a.unchanged antiga)) with
      | nil => exact absurd hl hne
      | cons x xs => rfl
    rw [hstep, if_neg (by rw [hch]; exact Bool.false_ne_true)]
    refine ⟨rfl, ?_, ?_⟩
    · intro d hd hdne
      refine List.mem_map.mpr ⟨d, hd, ?_⟩
      rw [if_neg (by simpa using hdne)]
    · have hpres : ∀ x : Demanda,
          (((fun d => if d.id == demanda_id then
              { (payload.filter (fun a => !(a.unchanged antiga))).foldl
                  Atualiza.apply d with
                data_atualizacao := now }
            else d) x).id == demanda_id) = (x.id == demanda_id) := by
        intro x
        beta_reduce
        by_cases hx : (x.id == demanda_id) = true
        · rw [if_pos hx]
          show (((payload.filter (fun a => !(a.unchanged antiga))).foldl
              Atualiza.apply x).id == demanda_id) = (x.id == demanda_id)
          rw [foldl_apply_id]
        · rw [if_neg (by simpa using hx)]
      have hmap := find?_map_comm db.demandas
        (fun d => if d.id == demanda_id then
            { (payload.filter (fun a => !(a.unchanged antiga))).foldl
                Atualiza.apply d with
              data_atualizacao := now }
          else d)
        (fun d => d.id == demanda_id) hpres
      have hanti : (antiga.id == demanda_id) = true := by
        have := List.find?_some hfind
        simpa using this
      refine ⟨({ (payload.filter (fun a => !(a.unchanged antiga))).foldl
                  Atualiza.apply antiga with data_atualizacao := now } : Demanda),
        ?_, ?_, ?_, rfl, ?_⟩
      · show (db.demandas.map (fun d => if d.id == demanda_id then
              { (payload.filter (fun a => !(a.unchanged antiga))).foldl
                  Atualiza.apply d with data_atualizacao := now }
            else d)).find? (fun d => d.id == demanda_id)
          = some ({ (payload.filter (fun a => !(a.unchanged antiga))).foldl
              Atualiza.apply antiga with data_atualizacao := now } : Demanda)
        rw [hmap, hfind]
        show some _ = some _
        beta_reduce
        rw [if_pos hanti]
      · show ({ (payload.filter (fun a => !(a.unchanged antiga))).foldl
            Atualiza.apply antiga with data_atualizacao := now } : Demanda).id = antiga.id
        show ((payload.filter (fun a => !(a.unchanged antiga))).foldl
            Atualiza.apply antiga).id = antiga.id
        rw [foldl_apply_id]
      · show ((payload.filter (fun a => !(a.unchanged antiga))).foldl
            Atualiza.apply antiga).data_criacao = antiga.data_criacao
        rw [foldl_apply_data_criacao]
      · intro c
        have hndf : ((payload.filter (fun a => !(a.unchanged antiga))).map
            Atualiza.campo).Nodup :=
          ((List.filter_sublist payload).map Atualiza.campo).nodup hnd
        rw [bump_fieldVal, foldl_apply_fieldVal _ _ _ hndf, find?_filter_comm]

/-- C5 witness: updating the sample demand's status to a new value
succeeds and appends exactly the diff row over the one changed field. -/
theorem atualizar_demanda_spec_witness :
    (atualizar_demanda dbExemplo 1 [.status "Em andamento"] "u" 11).2 = true ∧
    (atualizar_demanda dbExemplo 1 [.status "Em andamento"] "u" 11).1.historico
      = dbExemplo.historico
        ++ [{ id := 1, demanda_id := 1, usuario := "u", acao := "ATUALIZAÇÃO",
              detalhes := .atualizacao [(Campo.status, FieldVal.str "Pendente")]
                [(Campo.status, FieldVal.str "Em andamento")]
              data_acao := 11 }] := by
  have h := atualizar_demanda_spec dbExemplo 1 [.status "Em andamento"] "u" 11
    demandaExemplo (by decide) (by decide)
  refine ⟨h.1, ?_⟩
  rw [(h.2.2 (by decide)).1]
  decide

/-- C6 counterexample: `carregar_demandas` in `data_access.py` has no
department filter — a `departamento` key in the filter dict is never
consulted, so a demand from department `Operação` is returned even
under a department filter of `{"X"}`, where the claim requires the AND
of all supplied filters to exclude it.  (The same holds for the
free-text `search` key; only the `app.py` variant of the function
implements those two, and that variant in turn lacks the date-range
filters.) -/
theorem carregar_demandas_claim_false :
    carregar_demandas { departamento := some ["X"] } dbExemplo = [demandaExemplo] ∧
    demandaExemplo.departamento ∉ (["X"] : List String) := by
  constructor
  · decide
  · decide

/-- C6 (amended): `carregar_demandas` returns exactly the demands
satisfying the AND of the supplied non-empty filters among requester
substring (case-insensitive), exact normalized code, status set
membership, priority set membership, and creation-time range
[start, end), ordered by creation time descending; a status filter of
`{"Pendente"}` returns only demands with status `Pendente`; the
`departamento` and `search` keys of the filter dict are ignored by this
function. -/
theorem carregar_demandas_amended :
    (∀ (f : Filtros) (db : DB),
      (carregar_demandas f db).Perm (db.demandas.filter (matchesFiltros f))) ∧
    (∀ (f : Filtros) (db : DB),
      (carregar_demandas f db).Pairwise (fun a b => b.data_criacao ≤ a.data_criacao)) ∧
    (∀ (f : Filtros) (db : DB) (d : Demanda),
      d ∈ carregar_demandas f db ↔ d ∈ db.demandas ∧ matchesFiltros f d = true) ∧
    (∀ (db : DB) (d : Demanda),
      d ∈ carregar_demandas { status := some ["Pendente"] } db → d.status = "Pendente") ∧
    (∀ (f : Filtros) (db : DB) (dep : Option (List String)) (sea : Option String),
      carregar_demandas { f with departamento := dep, search := sea } db
        = carregar_demandas f db) := by
  have hperm : ∀ (f : Filtros) (db : DB),
      (carregar_demandas f db).Perm (db.demandas.filter (matchesFiltros f)) := by
    intro f db
    exact List.perm_insertionSort _ _
  refine ⟨hperm, ?_, ?_, ?_, ?_⟩
  · intro f db
    haveI : IsTotal Demanda (fun a b => b.data_criacao ≤ a.data_criacao) :=
      ⟨fun a b => Nat.le_total b.data_criacao a.data_criacao⟩
    haveI : IsTrans Demanda (fun a b => b.data_criacao ≤ a.data_criacao) :=
      ⟨fun a b c h1 h2 => Nat.le_trans h2 h1⟩
    exact List.sorted_insertionSort _ _
  · intro f db d
    exact (hperm f db).mem_iff.trans List.mem_filter
  · intro db d hmem
    have h2 := (List.mem_filter.mp ((hperm _ db).mem_iff.mp hmem)).2
    simp [matchesFiltros] at h2
    exact h2
  · intro f db dep sea
    rfl

/-- C6 witness: the amended membership statement applied to the sample
database under the `{"Pendente"}` status filter. -/
theorem carregar_demandas_amended_witness :
    demandaExemplo.status = "Pendente" :=
  carregar_demandas_amended.2.2.2.1 dbExemplo demandaExemplo (by decide)

/-- C10: in both `carregar_demandas` and `obter_estatisticas`, a filter
key supplied with an empty value — empty list for `status` or
`prioridade`, empty string for `solicitante` or `codigo` — is Python
falsy, so the corresponding `WHERE` clause is never added and the query
behaves exactly as if the key were absent. -/
theorem filtros_vazios_ignorados (f : Filtros) (db : DB) :
    carregar_demandas { f with status := some [] } db
      = carregar_demandas { f with status := none } db ∧
    carregar_demandas { f with prioridade := some [] } db
      = carregar_demandas { f with prioridade := none } db ∧
    carregar_demandas { f with solicitante := some "" } db
      = carregar_demandas { f with solicitante := none } db ∧
    carregar_demandas { f with codigo := some "" } db
      = carregar_demandas { f with codigo := none } db ∧
    obter_estatisticas { f with status := some [] } db
      = obter_estatisticas { f with status := none } db ∧
    obter_estatisticas { f with prioridade := some [] } db
      = obter_estatisticas { f with prioridade := none } db ∧
    obter_estatisticas { f with solicitante := some "" } db
      = obter_estatisticas { f with solicitante := none } db ∧
    obter_estatisticas { f with codigo := some "" } db
      = obter_estatisticas { f with codigo := none } db := by
  refine ⟨?_, ?_, ?_, ?_, ?_, ?_, ?_, ?_⟩ <;> rfl

end SistemaDemandas
